import Mathlib

/-!
Verification of the budget-manager core: the entity model
(`Category`, `Transaction`, `Budget`, `BudgetSummary`) from
`src/budget_manager/models.py`, and the aggregation operations from
`src/budget_manager/database.py` and `src/budget_manager/reports.py`.

Modelling conventions:
* Python `Decimal` values are modelled as `ℚ` (a `Decimal` is an exact
  rational with a power-of-ten denominator).  `Decimal.quantize(Decimal('0.01'))`
  under the default context rounds half-to-even, which `quantize2` mirrors.
* `datetime` values are modelled at day granularity by `Date`
  (year, month, day); comparisons are lexicographic, matching
  chronological order of ISO timestamps.
* A Python constructor that can raise `ValueError` in `__post_init__`
  is modelled as a function into `Except String _`.
* The SQLite store is modelled as the list of stored transaction rows;
  each SQL query is translated to the corresponding filter / sort /
  aggregation on that list.
-/

namespace BudgetManager

/-- Round a rational to the nearest integer, ties to the even integer.
This is `ROUND_HALF_EVEN`, the default rounding of Python's decimal context,
used by `Decimal.quantize` in `models.py`. -/
def roundHalfEven (q : ℚ) : ℤ :=
  let f : ℤ := q.floor
  if q - f < 1/2 then f
  else if 1/2 < q - f then f + 1
  else if f % 2 = 0 then f else f + 1

/-- `Decimal(str(x)).quantize(Decimal('0.01'))` under the default context:
round to 2 fractional digits, ties to even. -/
def quantize2 (q : ℚ) : ℚ := (roundHalfEven (q * 100) : ℚ) / 100

/-- Calendar date (the `datetime` values of the code, at day granularity). -/
structure Date where
  year : Int
  month : Nat
  day : Nat
deriving DecidableEq, Repr

/-- Lexicographic (chronological) order on dates, as a boolean test,
mirroring the SQL `date <= ?` comparisons on ISO timestamps. -/
def Date.leb (a b : Date) : Bool :=
  if a.year ≠ b.year then decide (a.year < b.year)
  else if a.month ≠ b.month then decide (a.month < b.month)
  else decide (a.day ≤ b.day)

/-- Gregorian leap-year test. -/
def isLeap (y : Int) : Bool :=
  y % 4 = 0 && (y % 100 ≠ 0 || y % 400 = 0)

/-- Number of days in a Gregorian month. -/
def daysInMonth (y : Int) (m : Nat) : Nat :=
  if m = 2 then (if isLeap y then 29 else 28)
  else if m = 4 ∨ m = 6 ∨ m = 9 ∨ m = 11 then 30
  else 31

/-- The day after a given date. -/
def nextDay (d : Date) : Date :=
  if d.day < daysInMonth d.year d.month then ⟨d.year, d.month, d.day + 1⟩
  else if d.month < 12 then ⟨d.year, d.month + 1, 1⟩
  else ⟨d.year + 1, 1, 1⟩

/-- `d + timedelta(days=n)`. -/
def addDays : Date → Nat → Date
  | d, 0 => d
  | d, n + 1 => addDays (nextDay d) n

/-- `TransactionType` enumeration from `models.py`. -/
inductive TransactionType where
  | income
  | expense
deriving DecidableEq, Repr

/-- `Category` dataclass from `models.py`. -/
structure Category where
  id : String
  name : String
  description : Option String
  color : Option String
  created_at : Date
deriving DecidableEq, Repr

/-- `Category` construction: `__post_init__` raises when the name is empty. -/
def mkCategory (id : String) (name : String) (description : Option String)
    (color : Option String) (created_at : Date) : Except String Category :=
  if name = "" then .error "Category name is required"
  else .ok { id := id, name := name, description := description,
             color := color, created_at := created_at }

/-- `Transaction` dataclass from `models.py`. -/
structure Transaction where
  id : String
  amount : ℚ
  description : String
  category_id : Option String
  transaction_type : TransactionType
  date : Date
  created_at : Date
  notes : Option String
deriving DecidableEq, Repr

/-- `Transaction` construction: `__post_init__` rejects an empty description,
rejects `amount <= 0`, then quantizes the amount to 2 fractional digits. -/
def mkTransaction (id : String) (amount : ℚ) (description : String)
    (category_id : Option String) (transaction_type : TransactionType)
    (date : Date) (created_at : Date) (notes : Option String) :
    Except String Transaction :=
  if description = "" then .error "Transaction description is required"
  else if amount ≤ 0 then .error "Transaction amount must be positive"
  else .ok { id := id, amount := quantize2 amount, description := description,
             category_id := category_id, transaction_type := transaction_type,
             date := date, created_at := created_at, notes := notes }

/-- `Budget` dataclass from `models.py`. -/
structure Budget where
  id : String
  category_id : String
  amount : ℚ
  period : String
  start_date : Date
  end_date : Option Date
  created_at : Date
  is_active : Bool
deriving DecidableEq, Repr

/-- `Budget` construction: `__post_init__` rejects an empty `category_id`,
rejects `amount <= 0`, quantizes the amount, and when no `end_date` was
given derives one from `period` (unrecognized periods derive nothing). -/
def mkBudget (id : String) (category_id : String) (amount : ℚ)
    (period : String) (start_date : Date) (end_date : Option Date)
    (created_at : Date) (is_active : Bool) : Except String Budget :=
  if category_id = "" then .error "Budget category_id is required"
  else if amount ≤ 0 then .error "Budget amount must be positive"
  else
    let derived : Option Date :=
      match end_date with
      | some e => some e
      | none =>
        if period = "monthly" then
          if start_date.month = 12 then some ⟨start_date.year + 1, 1, 1⟩
          else some ⟨start_date.year, start_date.month + 1, 1⟩
        else if period = "weekly" then some (addDays start_date 7)
        else if period = "yearly" then some ⟨start_date.year + 1, 1, 1⟩
        else none
    .ok { id := id, category_id := category_id, amount := quantize2 amount,
          period := period, start_date := start_date, end_date := derived,
          created_at := created_at, is_active := is_active }

/-- `BudgetSummary` dataclass from `models.py`.  The Python field
`percentage_used` is a binary float computed from exact decimals; it is
modelled exactly in `ℚ`. -/
structure BudgetSummary where
  budget : Budget
  spent_amount : ℚ
  remaining_amount : ℚ
  percentage_used : ℚ
  is_over_budget : Bool
  transaction_count : Nat
deriving DecidableEq, Repr

/-- `BudgetSummary.__post_init__`: recompute `remaining_amount` and
`is_over_budget`, and recompute `percentage_used` only when the budget
amount is positive (the divide-by-zero guard leaves the supplied value). -/
def budgetSummaryPostInit (s : BudgetSummary) : BudgetSummary :=
  { s with
    remaining_amount := s.budget.amount - s.spent_amount,
    percentage_used :=
      if 0 < s.budget.amount then s.spent_amount / s.budget.amount * 100
      else s.percentage_used,
    is_over_budget := decide (s.budget.amount < s.spent_amount) }

/-- Full `BudgetSummary` construction with every dataclass field supplied. -/
def mkBudgetSummaryFull (budget : Budget) (spent_amount remaining_amount : ℚ)
    (percentage_used : ℚ) (is_over_budget : Bool) (transaction_count : Nat) :
    BudgetSummary :=
  budgetSummaryPostInit
    { budget := budget, spent_amount := spent_amount,
      remaining_amount := remaining_amount, percentage_used := percentage_used,
      is_over_budget := is_over_budget, transaction_count := transaction_count }

/-- `BudgetSummary(budget=…, spent_amount=…, transaction_count=…)` as built by
`DatabaseManager.get_budget_summary`: the remaining fields take their
dataclass defaults (`0`, `0.0`, `False`). -/
def mkBudgetSummary (budget : Budget) (spent_amount : ℚ)
    (transaction_count : Nat) : BudgetSummary :=
  mkBudgetSummaryFull budget spent_amount 0 0 false transaction_count

/-! ### The storage layer, `database.py`

The SQLite store is modelled as the list of stored transaction rows
(together with the list of stored categories where a query joins them).
-/

/-- Python truthiness of an `Optional[str]` argument: `None` and the empty
string are falsy.  `get_transactions` guards each filter with `if arg:`. -/
def pyTruthyStr : Option String → Bool
  | none => false
  | some s => !(s == "")

/-- The `WHERE` clause built by `DatabaseManager.get_transactions`:
each filter is appended only when its argument is truthy. -/
def matchesFilters (category_id : Option String)
    (transaction_type : Option TransactionType)
    (start_date end_date : Option Date) (t : Transaction) : Bool :=
  (if pyTruthyStr category_id then t.category_id == category_id else true) &&
  (match transaction_type with
   | some ty => t.transaction_type == ty
   | none => true) &&
  (match start_date with
   | some s => Date.leb s t.date
   | none => true) &&
  (match end_date with
   | some e => Date.leb t.date e
   | none => true)

/-- `DatabaseManager.get_transactions`: filter, `ORDER BY date DESC`,
then `LIMIT` when a truthy (nonzero) limit is given. -/
def get_transactions (db : List Transaction) (category_id : Option String)
    (transaction_type : Option TransactionType)
    (start_date end_date : Option Date) (limit : Option Nat) :
    List Transaction :=
  let rows := db.filter
    (matchesFilters category_id transaction_type start_date end_date)
  let ordered := rows.mergeSort (fun a b => Date.leb b.date a.date)
  match limit with
  | some n => if n = 0 then ordered else ordered.take n
  | none => ordered

/-- `DatabaseManager.get_budget_summary`: query the expense transactions of
the budget's category between its start and end dates, sum their amounts,
and build a `BudgetSummary` from budget, spent amount and count. -/
def get_budget_summary (db : List Transaction) (budget : Budget) :
    BudgetSummary :=
  let transactions := get_transactions db (some budget.category_id)
    (some .expense) (some budget.start_date) budget.end_date none
  mkBudgetSummary budget ((transactions.map Transaction.amount).sum)
    transactions.length

/-- Date-range part of the `WHERE`/`ON` clauses of the aggregation queries:
`date >= start` and `date <= end`, each only when the bound is supplied. -/
def inDateRange (start_date end_date : Option Date) (t : Transaction) : Bool :=
  (match start_date with
   | some s => Date.leb s t.date
   | none => true) &&
  (match end_date with
   | some e => Date.leb t.date e
   | none => true)

/-- Result record of `DatabaseManager.get_income_vs_expenses`. -/
structure IncomeExpense where
  income : ℚ
  expense : ℚ
  net : ℚ
deriving DecidableEq, Repr

/-- `DatabaseManager.get_income_vs_expenses`: group the transactions in
range by type and sum amounts; a type with no rows keeps the default `0`;
`net = income - expense`. -/
def get_income_vs_expenses (db : List Transaction)
    (start_date end_date : Option Date) : IncomeExpense :=
  let income := ((db.filter (fun t =>
    t.transaction_type == .income && inDateRange start_date end_date t)).map
      Transaction.amount).sum
  let expense := ((db.filter (fun t =>
    t.transaction_type == .expense && inDateRange start_date end_date t)).map
      Transaction.amount).sum
  { income := income, expense := expense, net := income - expense }

/-- The per-category expense total of the `LEFT JOIN` in
`get_spending_by_category`: expense transactions of the category in range,
summed, `COALESCE`d to `0` when there are none. -/
def categoryExpenseTotal (db : List Transaction)
    (start_date end_date : Option Date) (c : Category) : ℚ :=
  ((db.filter (fun t =>
    t.category_id == some c.id && t.transaction_type == .expense &&
      inDateRange start_date end_date t)).map Transaction.amount).sum

/-- `DatabaseManager.get_spending_by_category`: one row per stored category
(the `LEFT JOIN` keeps categories with no matching transaction, total `0`),
`ORDER BY total DESC`, returned as name-total pairs in that order. -/
def get_spending_by_category (cats : List Category) (db : List Transaction)
    (start_date end_date : Option Date) : List (String × ℚ) :=
  (cats.map (fun c =>
    (c.name, categoryExpenseTotal db start_date end_date c))).mergeSort
      (fun a b => decide (b.2 ≤ a.2))

/-! ### The report layer, `reports.py` -/

/-- The financial-summary part of a custom report (income, expenses, net). -/
structure CustomReport where
  income : ℚ
  expense : ℚ
  net : ℚ
deriving DecidableEq, Repr

/-- `ReportGenerator.custom_report`: when a category name is supplied it is
resolved against the stored categories; an unresolved name aborts with no
report (the code prints a not-found message and returns an empty record,
modelled as `none`).  Otherwise the totals are computed, restricted to the
resolved category when there is one. -/
def custom_report (cats : List Category) (db : List Transaction)
    (start_date end_date : Date) (category_name : Option String) :
    Option CustomReport :=
  match category_name with
  | some n =>
    match cats.filter (fun c => c.name == n) with
    | [] => none
    | c :: _ =>
      let ts := get_transactions db (some c.id) none (some start_date)
        (some end_date) none
      let income := ((ts.filter
        (fun t => t.transaction_type == .income)).map Transaction.amount).sum
      let expense := ((ts.filter
        (fun t => t.transaction_type == .expense)).map Transaction.amount).sum
      some { income := income, expense := expense, net := income - expense }
  | none =>
    let r := get_income_vs_expenses db (some start_date) (some end_date)
    some { income := r.income, expense := r.expense, net := r.net }

/-! ### The spec's rounding rule, for comparison with the code's

The spec (§8) states that a constructed amount "equals the input amount
rounded half-up".  `specQuantize2HalfUp` is written from those words, not
from the code, to be compared against `quantize2`. -/

/-- Modelled from the spec: round to the nearest integer, ties upward
(standard half-up rounding). -/
def specRoundHalfUp (q : ℚ) : ℤ := (q + 1/2).floor

/-- Modelled from the spec: quantize to 2 fractional digits with half-up
rounding. -/
def specQuantize2HalfUp (q : ℚ) : ℚ := (specRoundHalfUp (q * 100) : ℚ) / 100

/-! ### Concrete fixtures used by witnesses -/

/-- A sample date, 2024-01-15. -/
def d0 : Date := ⟨2024, 1, 15⟩

/-- A sample budget: category `cat1`, amount `100.00`, January 2024. -/
def exBudget : Budget :=
  { id := "b1", category_id := "cat1", amount := 100, period := "monthly",
    start_date := ⟨2024, 1, 1⟩, end_date := some ⟨2024, 2, 1⟩,
    created_at := d0, is_active := true }

/-- A sample income transaction of `1000.00`. -/
def exIncomeTx : Transaction :=
  { id := "t1", amount := 1000, description := "Salary",
    category_id := some "cat2", transaction_type := .income,
    date := ⟨2024, 1, 10⟩, created_at := d0, notes := none }

/-- A sample expense transaction of `300.00` in category `cat1`. -/
def exExpenseTx : Transaction :=
  { id := "t2", amount := 300, description := "Rent",
    category_id := some "cat1", transaction_type := .expense,
    date := ⟨2024, 1, 12⟩, created_at := d0, notes := none }

/-- A sample store holding one income and one expense transaction. -/
def exDb : List Transaction := [exIncomeTx, exExpenseTx]

/-- A sample category holding the sample expense transaction. -/
def exCatHousing : Category :=
  { id := "cat1", name := "Housing", description := none, color := none,
    created_at := d0 }

/-- A sample category with no transactions. -/
def exCatTravel : Category :=
  { id := "cat3", name := "Travel", description := none, color := none,
    created_at := d0 }

/-- Two sample categories, the second with no transactions. -/
def exCats : List Category := [exCatHousing, exCatTravel]

/-! ## Helper lemmas -/

/-- `Rat.floor` agrees with the `⌊·⌋` of the order structure. -/
theorem ratFloor_eq (q : ℚ) : q.floor = ⌊q⌋ := by
  rw [Rat.floor_def', Rat.floor_def]

/-- `roundHalfEven` written with `⌊·⌋`, for reasoning. -/
theorem roundHalfEven_eq_ite (q : ℚ) :
    roundHalfEven q =
      if q - ⌊q⌋ < 1/2 then ⌊q⌋
      else if 1/2 < q - ⌊q⌋ then ⌊q⌋ + 1
      else if ⌊q⌋ % 2 = 0 then ⌊q⌋ else ⌊q⌋ + 1 := by
  unfold roundHalfEven
  rw [ratFloor_eq]

/-- Half-even rounding moves a value by at most one half. -/
theorem abs_roundHalfEven_sub_le (x : ℚ) :
    |(roundHalfEven x : ℚ) - x| ≤ 1/2 := by
  rw [roundHalfEven_eq_ite]
  have h1 : (⌊x⌋ : ℚ) ≤ x := Int.floor_le x
  have h2 : x < ⌊x⌋ + 1 := Int.lt_floor_add_one x
  split_ifs with ha hb hc
  · rw [abs_le]; constructor <;> linarith
  · rw [abs_le]; constructor <;> push_cast <;> linarith
  · rw [abs_le]; constructor <;> linarith
  · rw [abs_le]; constructor <;> push_cast <;> linarith

/-- Quantizing to cents moves a value by at most half a cent. -/
theorem abs_quantize2_sub_le (q : ℚ) : |quantize2 q - q| ≤ 1/200 := by
  have h := abs_roundHalfEven_sub_le (q * 100)
  rw [quantize2]
  have he : (roundHalfEven (q * 100) : ℚ) / 100 - q =
      ((roundHalfEven (q * 100) : ℚ) - q * 100) / 100 := by ring
  rw [he, abs_div, abs_of_pos (by norm_num : (0:ℚ) < 100)]
  linarith

/-- Evaluation: `quantize2 10.005 = 10.00` (tie, rounds to the even cent). -/
theorem quantize2_eval_tie : quantize2 (10.005 : ℚ) = 10 := by
  have hf : ⌊(10.005 * 100 : ℚ)⌋ = 1000 := by
    rw [Int.floor_eq_iff]
    constructor <;> norm_num
  rw [quantize2, roundHalfEven_eq_ite, hf]
  norm_num

/-- Evaluation: `quantize2 10.1 = 10.10`. -/
theorem quantize2_eval_tenth : quantize2 (10.1 : ℚ) = 101/10 := by
  have hf : ⌊(10.1 * 100 : ℚ)⌋ = 1010 := by
    rw [Int.floor_eq_iff]
    constructor <;> norm_num
  rw [quantize2, roundHalfEven_eq_ite, hf]
  norm_num

/-- Evaluation: `quantize2 10.999 = 11.00`. -/
theorem quantize2_eval_up : quantize2 (10.999 : ℚ) = 11 := by
  have hf : ⌊(10.999 * 100 : ℚ)⌋ = 1099 := by
    rw [Int.floor_eq_iff]
    constructor <;> norm_num
  rw [quantize2, roundHalfEven_eq_ite, hf]
  norm_num

/-- Evaluation: `quantize2 0.004 = 0.00` (a positive sub-cent amount is
quantized away). -/
theorem quantize2_eval_subcent : quantize2 (0.004 : ℚ) = 0 := by
  have hf : ⌊(0.004 * 100 : ℚ)⌋ = 0 := by
    rw [Int.floor_eq_iff]
    constructor <;> norm_num
  rw [quantize2, roundHalfEven_eq_ite, hf]
  norm_num

/-- Quantizing an integer amount leaves it unchanged. -/
theorem quantize2_intCast (n : ℤ) : quantize2 (n : ℚ) = n := by
  have h : ((n : ℚ) * 100) = ((n * 100 : ℤ) : ℚ) := by push_cast; ring
  have hf : ⌊((n * 100 : ℤ) : ℚ)⌋ = n * 100 := Int.floor_intCast _
  rw [quantize2, h, roundHalfEven_eq_ite, hf]
  rw [if_pos (by norm_num)]
  push_cast
  ring

/-! ## The claims -/

/-- Claim C1: for every `BudgetSummary` built (as `get_budget_summary`
builds it) from a budget, a spent amount and a transaction count, the
derived fields satisfy `remaining_amount = budget.amount - spent_amount`,
`is_over_budget = (spent_amount > budget.amount)`,
`percentage_used = spent / amount * 100` when the budget amount is
positive, and `percentage_used = 0` when the budget amount is `0`
(no division error). -/
theorem budgetSummary_invariants (b : Budget) (spent : ℚ) (cnt : ℕ) :
    (mkBudgetSummary b spent cnt).remaining_amount = b.amount - spent ∧
    (mkBudgetSummary b spent cnt).is_over_budget = decide (spent > b.amount) ∧
    (mkBudgetSummary b spent cnt).transaction_count = cnt ∧
    (0 < b.amount →
      (mkBudgetSummary b spent cnt).percentage_used = spent / b.amount * 100) ∧
    (b.amount = 0 → (mkBudgetSummary b spent cnt).percentage_used = 0) := by
  refine ⟨rfl, rfl, rfl, fun h => ?_, fun h => ?_⟩
  · simp only [mkBudgetSummary, mkBudgetSummaryFull, budgetSummaryPostInit]
    rw [if_pos h]
  · simp only [mkBudgetSummary, mkBudgetSummaryFull, budgetSummaryPostInit]
    rw [if_neg (by rw [h]; exact lt_irrefl 0)]

/-- Witness for C1 at `amount = 100.00`, `spent = 75.00`, `count = 3`. -/
theorem budgetSummary_invariants_witness :
    (mkBudgetSummary exBudget 75 3).remaining_amount = 25 ∧
    (mkBudgetSummary exBudget 75 3).is_over_budget = false ∧
    (mkBudgetSummary exBudget 75 3).percentage_used = 75 := by
  have h := budgetSummary_invariants exBudget 75 3
  refine ⟨?_, ?_, ?_⟩
  · rw [h.1]; show (100 : ℚ) - 75 = 25; norm_num
  · rw [h.2.1]; simp [exBudget]; norm_num
  · rw [h.2.2.2.1 (by show (0:ℚ) < 100; norm_num)]
    show (75 : ℚ) / 100 * 100 = 75; norm_num

/-- Claim C2: for every `Budget` constructed without an explicit end date,
`monthly` derives the first day of the following month (December rolls
over to January 1 of the next year), `weekly` derives `start + 7` days,
`yearly` derives January 1 of the next year; in particular
`2024-01-15` gives `2024-02-01` (monthly), `2024-01-22` (weekly) and
`2025-01-01` (yearly). -/
theorem budget_end_date_derivation :
    (∀ (i cid : String) (amt : ℚ) (start : Date) (created : Date)
      (active : Bool), cid ≠ "" → 0 < amt →
      (∃ b, mkBudget i cid amt "monthly" start none created active = .ok b ∧
        b.end_date = some (if start.month = 12 then ⟨start.year + 1, 1, 1⟩
          else ⟨start.year, start.month + 1, 1⟩)) ∧
      (∃ b, mkBudget i cid amt "weekly" start none created active = .ok b ∧
        b.end_date = some (addDays start 7)) ∧
      (∃ b, mkBudget i cid amt "yearly" start none created active = .ok b ∧
        b.end_date = some ⟨start.year + 1, 1, 1⟩)) ∧
    (∃ b, mkBudget "b" "c" 100 "monthly" d0 none d0 true = .ok b ∧
      b.end_date = some ⟨2024, 2, 1⟩) ∧
    (∃ b, mkBudget "b" "c" 100 "weekly" d0 none d0 true = .ok b ∧
      b.end_date = some ⟨2024, 1, 22⟩) ∧
    (∃ b, mkBudget "b" "c" 100 "yearly" d0 none d0 true = .ok b ∧
      b.end_date = some ⟨2025, 1, 1⟩) ∧
    (∃ b, mkBudget "b" "c" 100 "monthly" ⟨2024, 12, 10⟩ none d0 true = .ok b ∧
      b.end_date = some ⟨2025, 1, 1⟩) := by
  have gm : ∀ (i cid : String) (amt : ℚ) (start : Date) (created : Date)
      (active : Bool), cid ≠ "" → 0 < amt →
      ∃ b, mkBudget i cid amt "monthly" start none created active = .ok b ∧
        b.end_date = some (if start.month = 12 then ⟨start.year + 1, 1, 1⟩
          else ⟨start.year, start.month + 1, 1⟩) := by
    intro i cid amt start created active hcid hamt
    unfold mkBudget
    rw [if_neg hcid, if_neg (not_le.mpr hamt)]
    refine ⟨_, rfl, ?_⟩
    by_cases h12 : start.month = 12
    · simp [h12]
    · simp [h12]
  have gw : ∀ (i cid : String) (amt : ℚ) (start : Date) (created : Date)
      (active : Bool), cid ≠ "" → 0 < amt →
      ∃ b, mkBudget i cid amt "weekly" start none created active = .ok b ∧
        b.end_date = some (addDays start 7) := by
    intro i cid amt start created active hcid hamt
    unfold mkBudget
    rw [if_neg hcid, if_neg (not_le.mpr hamt)]
    exact ⟨_, rfl, rfl⟩
  have gy : ∀ (i cid : String) (amt : ℚ) (start : Date) (created : Date)
      (active : Bool), cid ≠ "" → 0 < amt →
      ∃ b, mkBudget i cid amt "yearly" start none created active = .ok b ∧
        b.end_date = some ⟨start.year + 1, 1, 1⟩ := by
    intro i cid amt start created active hcid hamt
    unfold mkBudget
    rw [if_neg hcid, if_neg (not_le.mpr hamt)]
    exact ⟨_, rfl, rfl⟩
  refine ⟨fun i cid amt start created active hcid hamt =>
    ⟨gm i cid amt start created active hcid hamt,
     gw i cid amt start created active hcid hamt,
     gy i cid amt start created active hcid hamt⟩, ?_, ?_, ?_, ?_⟩
  · obtain ⟨b, hb, he⟩ := gm "b" "c" 100 d0 d0 true (by decide) (by norm_num)
    exact ⟨b, hb, by rw [he]; rfl⟩
  · obtain ⟨b, hb, he⟩ := gw "b" "c" 100 d0 d0 true (by decide) (by norm_num)
    exact ⟨b, hb, by rw [he]; rfl⟩
  · obtain ⟨b, hb, he⟩ := gy "b" "c" 100 d0 d0 true (by decide) (by norm_num)
    exact ⟨b, hb, by rw [he]; rfl⟩
  · obtain ⟨b, hb, he⟩ :=
      gm "b" "c" 100 ⟨2024, 12, 10⟩ d0 true (by decide) (by norm_num)
    exact ⟨b, hb, by rw [he]; rfl⟩

/-- Witness for C2: the general statement applied at a concrete input
(start `2024-01-15`, period `weekly`), hypotheses discharged. -/
theorem budget_end_date_derivation_witness :
    ∃ b, mkBudget "b" "c" 50 "weekly" d0 none d0 true = .ok b ∧
      b.end_date = some (addDays d0 7) :=
  (budget_end_date_derivation.1 "b" "c" 50 d0 d0 true (by decide)
    (by norm_num)).2.1

/-- Claim C3, counterexample: at input `10.005` the constructed amount is
`10.00` (the `quantize` default rounds half to even), while half-up
rounding of the input is `10.01`; the stored amount does not equal the
input rounded half-up. -/
theorem transaction_halfup_counterexample :
    (mkTransaction "t1" (10.005 : ℚ) "Test" none .expense d0 d0 none).map
      Transaction.amount = .ok 10 ∧
    specQuantize2HalfUp (10.005 : ℚ) = 1001/100 ∧
    (10 : ℚ) ≠ 1001/100 := by
  refine ⟨?_, ?_, by norm_num⟩
  · rw [mkTransaction, if_neg (by decide), if_neg (by norm_num)]
    simp [Except.map, quantize2_eval_tie]
  · have hf : ⌊(10.005 * 100 + 1/2 : ℚ)⌋ = 1001 := by
      rw [Int.floor_eq_iff]
      constructor <;> norm_num
    rw [specQuantize2HalfUp, specRoundHalfUp, ratFloor_eq, hf]
    norm_num

/-- Claim C3 as amended: for every accepted input the stored amount is the
input quantized to cents with half-to-even rounding: it is an integer
number of cents, within half a cent of the input; `10.1` gives `10.10`,
`10.999` gives `11.00`, and the tie `10.005` gives `10.00`. -/
theorem transaction_amount_quantization :
    (∀ (i desc : String) (a : ℚ) (cid : Option String)
      (ty : TransactionType) (d ca : Date) (nt : Option String),
      desc ≠ "" → 0 < a →
      ∃ t, mkTransaction i a desc cid ty d ca nt = .ok t ∧
        t.amount = quantize2 a ∧
        (∃ n : ℤ, t.amount = (n : ℚ) / 100) ∧
        |t.amount - a| ≤ 1/200) ∧
    (mkTransaction "t" (10.1 : ℚ) "Test" none .expense d0 d0 none).map
      Transaction.amount = .ok (101/10) ∧
    (mkTransaction "t" (10.999 : ℚ) "Test" none .expense d0 d0 none).map
      Transaction.amount = .ok 11 ∧
    (mkTransaction "t" (10.005 : ℚ) "Test" none .expense d0 d0 none).map
      Transaction.amount = .ok 10 := by
  refine ⟨?_, ?_, ?_, ?_⟩
  · intro i desc a cid ty d ca nt hdesc ha
    rw [mkTransaction, if_neg hdesc, if_neg (not_le.mpr ha)]
    exact ⟨_, rfl, rfl, ⟨roundHalfEven (a * 100), rfl⟩, abs_quantize2_sub_le a⟩
  · rw [mkTransaction, if_neg (by decide), if_neg (by norm_num)]
    simp [Except.map, quantize2_eval_tenth]
  · rw [mkTransaction, if_neg (by decide), if_neg (by norm_num)]
    simp [Except.map, quantize2_eval_up]
  · rw [mkTransaction, if_neg (by decide), if_neg (by norm_num)]
    simp [Except.map, quantize2_eval_tie]

/-- Witness for the amended C3 at input `10.1`. -/
theorem transaction_amount_quantization_witness :
    ∃ t, mkTransaction "t" (10.1 : ℚ) "Test" none .expense d0 d0 none =
        .ok t ∧
      t.amount = quantize2 (10.1 : ℚ) ∧
      (∃ n : ℤ, t.amount = (n : ℚ) / 100) ∧
      |t.amount - (10.1 : ℚ)| ≤ 1/200 :=
  transaction_amount_quantization.1 "t" "Test" (10.1 : ℚ) none .expense d0 d0
    none (by decide) (by norm_num)

/-- Claim C4: constructing any entity with its required field empty fails
with the validation error, and constructing a `Transaction` or `Budget`
with `amount ≤ 0` fails; the failure is surfaced as an error value, so
no entity is produced. -/
theorem construction_validation :
    (∀ (i : String) (descr color : Option String) (ca : Date),
      mkCategory i "" descr color ca = .error "Category name is required") ∧
    (∀ (i : String) (a : ℚ) (cid : Option String) (ty : TransactionType)
      (d ca : Date) (nt : Option String),
      mkTransaction i a "" cid ty d ca nt =
        .error "Transaction description is required") ∧
    (∀ (i : String) (a : ℚ) (p : String) (s : Date) (e : Option Date)
      (ca : Date) (act : Bool),
      mkBudget i "" a p s e ca act =
        .error "Budget category_id is required") ∧
    (∀ (i desc : String) (a : ℚ) (cid : Option String)
      (ty : TransactionType) (d ca : Date) (nt : Option String), a ≤ 0 →
      ∃ msg, mkTransaction i a desc cid ty d ca nt = .error msg) ∧
    (∀ (i cid : String) (a : ℚ) (p : String) (s : Date) (e : Option Date)
      (ca : Date) (act : Bool), a ≤ 0 →
      ∃ msg, mkBudget i cid a p s e ca act = .error msg) := by
  refine ⟨fun i descr color ca => rfl, fun i a cid ty d ca nt => rfl,
    fun i a p s e ca act => rfl, ?_, ?_⟩
  · intro i desc a cid ty d ca nt ha
    unfold mkTransaction
    by_cases hd : desc = ""
    · exact ⟨_, by rw [if_pos hd]⟩
    · exact ⟨_, by rw [if_neg hd, if_pos ha]⟩
  · intro i cid a p s e ca act ha
    unfold mkBudget
    by_cases hc : cid = ""
    · exact ⟨_, by rw [if_pos hc]⟩
    · exact ⟨_, by rw [if_neg hc, if_pos ha]⟩

/-- Witness for C4: a zero-amount transaction and a negative-amount budget
are both rejected. -/
theorem construction_validation_witness :
    (∃ msg, mkTransaction "t" 0 "Test" none .expense d0 d0 none =
      .error msg) ∧
    (∃ msg, mkBudget "b" "c" (-5) "monthly" d0 none d0 true =
      .error msg) :=
  ⟨construction_validation.2.2.2.1 "t" "Test" 0 none .expense d0 d0 none
      (le_refl 0),
   construction_validation.2.2.2.2 "b" "c" (-5) "monthly" d0 none d0 true
      (by norm_num)⟩

/-- Claim C5 fails on the code: the input `0.004` passes the positivity
check (`0 < 0.004`) but quantization stores amount `0.00`, which is not
strictly positive.  This theorem evaluates the code at that input. -/
theorem transaction_subcent_amount_zero :
    (0 : ℚ) < 0.004 ∧
    (mkTransaction "t1" (0.004 : ℚ) "Test" none .expense d0 d0 none).map
      Transaction.amount = .ok 0 := by
  refine ⟨by norm_num, ?_⟩
  rw [mkTransaction, if_neg (by decide), if_neg (by norm_num)]
  simp [Except.map, quantize2_eval_subcent]

/-- Claim C6: for a budget with an end date, `get_budget_summary` sums
exactly the expense-type transactions of the budget's category dated in
`[start_date, end_date]`, inclusive at both ends; `spent_amount` is their
sum, `transaction_count` their count, and with no matching transactions
the spent amount is `0` and the over-budget flag is off. -/
theorem budget_summary_aggregation (db : List Transaction) (b : Budget)
    (e : Date) (hcid : b.category_id ≠ "") (he : b.end_date = some e)
    (hamt : 0 ≤ b.amount) :
    (get_budget_summary db b).spent_amount =
      ((db.filter (fun t =>
        t.category_id == some b.category_id &&
        t.transaction_type == TransactionType.expense &&
        Date.leb b.start_date t.date && Date.leb t.date e)).map
          Transaction.amount).sum ∧
    (get_budget_summary db b).transaction_count =
      (db.filter (fun t =>
        t.category_id == some b.category_id &&
        t.transaction_type == TransactionType.expense &&
        Date.leb b.start_date t.date && Date.leb t.date e)).length ∧
    (db.filter (fun t =>
        t.category_id == some b.category_id &&
        t.transaction_type == TransactionType.expense &&
        Date.leb b.start_date t.date && Date.leb t.date e) = [] →
      (get_budget_summary db b).spent_amount = 0 ∧
      (get_budget_summary db b).is_over_budget = false) := by
  have hfil : db.filter (matchesFilters (some b.category_id)
      (some TransactionType.expense) (some b.start_date) b.end_date) =
      db.filter (fun t =>
        t.category_id == some b.category_id &&
        t.transaction_type == TransactionType.expense &&
        Date.leb b.start_date t.date && Date.leb t.date e) := by
    apply List.filter_congr
    intro t _
    rw [he]
    simp [matchesFilters, pyTruthyStr, hcid]
  have hsum : (get_budget_summary db b).spent_amount =
      ((db.filter (fun t =>
        t.category_id == some b.category_id &&
        t.transaction_type == TransactionType.expense &&
        Date.leb b.start_date t.date && Date.leb t.date e)).map
          Transaction.amount).sum := by
    simp only [get_budget_summary, get_transactions, mkBudgetSummary,
      mkBudgetSummaryFull, budgetSummaryPostInit]
    rw [hfil]
    exact ((List.mergeSort_perm _ _).map Transaction.amount).sum_eq
  have hlen : (get_budget_summary db b).transaction_count =
      (db.filter (fun t =>
        t.category_id == some b.category_id &&
        t.transaction_type == TransactionType.expense &&
        Date.leb b.start_date t.date && Date.leb t.date e)).length := by
    simp only [get_budget_summary, get_transactions, mkBudgetSummary,
      mkBudgetSummaryFull, budgetSummaryPostInit]
    rw [hfil]
    exact List.length_mergeSort _
  refine ⟨hsum, hlen, fun hempty => ⟨?_, ?_⟩⟩
  · rw [hsum, hempty]
    simp
  · have h0 : (get_budget_summary db b).spent_amount = 0 := by
      rw [hsum, hempty]
      simp
    simp only [get_budget_summary, mkBudgetSummary, mkBudgetSummaryFull,
      budgetSummaryPostInit] at h0 ⊢
    rw [h0]
    simp [not_lt.mpr hamt]

/-- Witness for C6 on the sample store and budget. -/
theorem budget_summary_aggregation_witness :
    (get_budget_summary exDb exBudget).spent_amount =
      ((exDb.filter (fun t =>
        t.category_id == some exBudget.category_id &&
        t.transaction_type == TransactionType.expense &&
        Date.leb exBudget.start_date t.date &&
        Date.leb t.date ⟨2024, 2, 1⟩)).map Transaction.amount).sum ∧
    (get_budget_summary exDb exBudget).transaction_count =
      (exDb.filter (fun t =>
        t.category_id == some exBudget.category_id &&
        t.transaction_type == TransactionType.expense &&
        Date.leb exBudget.start_date t.date &&
        Date.leb t.date ⟨2024, 2, 1⟩)).length := by
  have h := budget_summary_aggregation exDb exBudget ⟨2024, 2, 1⟩
    (by decide) rfl (by show (0 : ℚ) ≤ 100; norm_num)
  exact ⟨h.1, h.2.1⟩

/-- Claim C7: `get_income_vs_expenses` returns the sum of income-type
amounts in range, the sum of expense-type amounts in range, and
`net = income - expense`; an empty group contributes `0`.  On a store
with one `1000.00` income and one `300.00` expense it returns
`income = 1000.00`, `expense = 300.00`, `net = 700.00`. -/
theorem income_vs_expenses_correct :
    (∀ (db : List Transaction) (s e : Option Date),
      (get_income_vs_expenses db s e).income =
        ((db.filter (fun t => t.transaction_type == TransactionType.income &&
          inDateRange s e t)).map Transaction.amount).sum ∧
      (get_income_vs_expenses db s e).expense =
        ((db.filter (fun t => t.transaction_type == TransactionType.expense &&
          inDateRange s e t)).map Transaction.amount).sum ∧
      (get_income_vs_expenses db s e).net =
        (get_income_vs_expenses db s e).income -
          (get_income_vs_expenses db s e).expense ∧
      (db.filter (fun t => t.transaction_type == TransactionType.income &&
          inDateRange s e t) = [] →
        (get_income_vs_expenses db s e).income = 0) ∧
      (db.filter (fun t => t.transaction_type == TransactionType.expense &&
          inDateRange s e t) = [] →
        (get_income_vs_expenses db s e).expense = 0)) ∧
    get_income_vs_expenses exDb none none =
      { income := 1000, expense := 300, net := 700 } := by
  refine ⟨fun db s e => ⟨rfl, rfl, rfl, fun h => ?_, fun h => ?_⟩, ?_⟩
  · simp only [get_income_vs_expenses]
    rw [h]
    rfl
  · simp only [get_income_vs_expenses]
    rw [h]
    rfl
  · simp [get_income_vs_expenses, exDb, exIncomeTx, exExpenseTx, inDateRange]
    norm_num

/-- Witness for C7 on the sample store. -/
theorem income_vs_expenses_witness :
    (get_income_vs_expenses exDb none none).income = 1000 ∧
    (get_income_vs_expenses exDb none none).net =
      (get_income_vs_expenses exDb none none).income -
        (get_income_vs_expenses exDb none none).expense := by
  have h := income_vs_expenses_correct
  refine ⟨?_, (h.1 exDb none none).2.2.1⟩
  rw [h.2]

/-- Claim C8: `get_spending_by_category` has one entry per stored category
(those with no matching expense transactions appear with total `0`),
each entry carrying the sum of the category's expense amounts in range,
and the entries are ordered by descending total. -/
theorem spending_by_category_correct (cats : List Category)
    (db : List Transaction) (s e : Option Date) :
    (∀ c ∈ cats, (c.name, categoryExpenseTotal db s e c) ∈
      get_spending_by_category cats db s e) ∧
    (∀ c ∈ cats, db.filter (fun t =>
        t.category_id == some c.id &&
        t.transaction_type == TransactionType.expense &&
        inDateRange s e t) = [] →
      (c.name, (0 : ℚ)) ∈ get_spending_by_category cats db s e) ∧
    (get_spending_by_category cats db s e).length = cats.length ∧
    List.Pairwise (fun a b : String × ℚ => b.2 ≤ a.2)
      (get_spending_by_category cats db s e) := by
  have hmem : ∀ c ∈ cats, (c.name, categoryExpenseTotal db s e c) ∈
      get_spending_by_category cats db s e := by
    intro c hc
    unfold get_spending_by_category
    rw [List.mem_mergeSort]
    exact List.mem_map_of_mem _ hc
  refine ⟨hmem, ?_, ?_, ?_⟩
  · intro c hc hempty
    have h0 : categoryExpenseTotal db s e c = 0 := by
      unfold categoryExpenseTotal
      rw [hempty]
      rfl
    have hx := hmem c hc
    rwa [h0] at hx
  · unfold get_spending_by_category
    rw [List.length_mergeSort, List.length_map]
  · unfold get_spending_by_category
    have htrans : ∀ a b c : String × ℚ,
        (fun a b : String × ℚ => decide (b.2 ≤ a.2)) a b →
        (fun a b : String × ℚ => decide (b.2 ≤ a.2)) b c →
        (fun a b : String × ℚ => decide (b.2 ≤ a.2)) a c := by
      intro a b c h1 h2
      simp only [decide_eq_true_eq] at h1 h2 ⊢
      exact le_trans h2 h1
    have htotal : ∀ a b : String × ℚ,
        (fun a b : String × ℚ => decide (b.2 ≤ a.2)) a b ||
        (fun a b : String × ℚ => decide (b.2 ≤ a.2)) b a := by
      intro a b
      simp only [Bool.or_eq_true, decide_eq_true_eq]
      exact le_total b.2 a.2
    have hs := List.sorted_mergeSort htrans htotal
      (cats.map (fun c => (c.name, categoryExpenseTotal db s e c)))
    exact hs.imp (fun h => of_decide_eq_true h)

/-- Witness for C8: on the sample store, `Housing` appears with its total
and the transaction-less `Travel` appears with total `0`. -/
theorem spending_by_category_witness :
    ("Housing", categoryExpenseTotal exDb none none exCatHousing) ∈
      get_spending_by_category exCats exDb none none ∧
    ("Travel", (0 : ℚ)) ∈ get_spending_by_category exCats exDb none none := by
  have h := spending_by_category_correct exCats exDb none none
  refine ⟨?_, ?_⟩
  · simpa using h.1 exCatHousing (by simp [exCats])
  · simpa using h.2.1 exCatTravel (by simp [exCats])
      (by simp [exDb, exIncomeTx, exExpenseTx, exCatTravel])

/-- Claim C9: a custom report for a category name that resolves to no
stored category produces no report (the not-found signal). -/
theorem custom_report_unknown_category (cats : List Category)
    (db : List Transaction) (s e : Date) (n : String)
    (h : ∀ c ∈ cats, c.name ≠ n) :
    custom_report cats db s e (some n) = none := by
  unfold custom_report
  have hfil : cats.filter (fun c => c.name == n) = [] := by
    rw [List.filter_eq_nil_iff]
    intro c hc
    simpa using h c hc
  simp only [custom_report, hfil]

/-- Witness for C9: no sample category is named `Groceries`. -/
theorem custom_report_unknown_category_witness :
    custom_report exCats exDb ⟨2024, 1, 1⟩ ⟨2024, 2, 1⟩
      (some "Groceries") = none :=
  custom_report_unknown_category exCats exDb ⟨2024, 1, 1⟩ ⟨2024, 2, 1⟩
    "Groceries" (by decide)

/-- Claim C10: a `Budget` with a period outside
`{weekly, monthly, yearly}` and no explicit end date is constructed
without error and its `end_date` is `None`: the period string is not
validated and no end date is derived. -/
theorem budget_unknown_period_no_end_date (i cid : String) (amt : ℚ)
    (p : String) (start created : Date) (active : Bool)
    (hcid : cid ≠ "") (hamt : 0 < amt) (h1 : p ≠ "monthly")
    (h2 : p ≠ "weekly") (h3 : p ≠ "yearly") :
    ∃ b, mkBudget i cid amt p start none created active = .ok b ∧
      b.end_date = none := by
  unfold mkBudget
  rw [if_neg hcid, if_neg (not_le.mpr hamt)]
  refine ⟨_, rfl, ?_⟩
  simp [h1, h2, h3]

/-- Witness for C10 at the unrecognized period `daily`. -/
theorem budget_unknown_period_witness :
    ∃ b, mkBudget "b" "c" 50 "daily" d0 none d0 true = .ok b ∧
      b.end_date = none :=
  budget_unknown_period_no_end_date "b" "c" 50 "daily" d0 d0 true
    (by decide) (by norm_num) (by decide) (by decide) (by decide)

end BudgetManager
